import Mathlib

/-!
Shallow embedding of the OpenTag DASH7 Mode 2 native kernel (system.c) and
proofs of the specified properties.

The embedding models the translation unit system.c for the configuration
ENDPOINT + BEACONS enabled, EXTERNAL_EVENT / DATASTREAM / RTC_SCHEDULER
disabled, and software-managed RX/TX timers (RF_FEATURE RXTIMER and TXTIMER
disabled), which is the configuration the specification describes.  Machine
integers are modelled as Nat (unsigned fields) or Int (signed tick counters),
with masks applied where the C code relies on byte width.  External modules
referenced only by contract (radio driver, session stack, veelite file store,
network/transport builders) are modelled from the specification where their
behaviour decides a property, and are otherwise carried as opaque-effect
counters or function parameters.
-/

namespace OpenTag

/-! ## Constants

The mutex bits, netstate bits, class bits and CSMA-CA parameter bits are
declared in headers that are not part of the sources at hand (system.h,
session.h, OT_config.h).  Modelled from the spec: the mutex is a bitfield
with RADIO_LISTEN, RADIO_DATA and PROCESSING bits; netstate is a packed
bitfield whose bits 5..7 drive the session-task dispatch (bit 7 = scrap,
bits 5..6 select the initializer), whose bits 4..5 are the request/response
transfer bits toggled by XOR 0x30, and whose low bits carry the
init/firstrx/associated/connected flags; csmaca_params selects the CA mode
in bits 3..4 with orthogonal A2P and NOCSMA bits. -/

def SYS_MUTEX_RADIO_LISTEN : Nat := 0x01

def SYS_MUTEX_RADIO_DATA : Nat := 0x02

def SYS_MUTEX_PROCESSING : Nat := 0x04

def M2_NETSTATE_CONNECTED : Nat := 0x01

def M2_NETSTATE_ASSOCIATED : Nat := 0x02

def M2_NETFLAG_FIRSTRX : Nat := 0x04

def M2_NETSTATE_INIT : Nat := 0x08

def M2_NETSTATE_REQTX : Nat := 0x00

def M2_NETSTATE_RESPTX : Nat := 0x10

def M2_NETSTATE_RESP : Nat := 0x10

def M2_NETSTATE_REQRX : Nat := 0x20

def M2_NETSTATE_RESPRX : Nat := 0x30

def M2_NETSTATE_TMASK : Nat := 0x30

def M2_NETFLAG_FLOOD : Nat := 0x40

def M2_NETFLAG_SCRAP : Nat := 0x80

def M2_CSMACA_NA2P : Nat := 0x00

def M2_CSMACA_A2P : Nat := 0x04

def M2_CSMACA_MACCA : Nat := 0x00

def M2_CSMACA_NOCSMA : Nat := 0x02

def M2_MACIDLE_OFF : Nat := 0

def M2_MACIDLE_SLEEP : Nat := 1

def M2_MACIDLE_HOLD : Nat := 2

def M2_SET_ENDPOINT : Nat := 0x02

def M2_SET_SUBCONTROLLER : Nat := 0x04

def M2_SET_CLASSMASK : Nat := 0x0F

/-- ISF element ids: the arithmetic in sub_idlevt_ctrl of the source
(offset = (sequence_id - 4) << 2 giving sleep 0, hold 4, beacon 8) fixes
sleep_scan_sequence = 4, hold_scan_sequence = 5, beacon_transmit_sequence = 6. -/
def ISF_ID_sleep_scan_sequence : Nat := 4

def ISF_ID_hold_scan_sequence : Nat := 5

def ISF_ID_beacon_transmit_sequence : Nat := 6

/-- Task_Index values of the source enum, for the configuration with
ENDPOINT and BEACONS enabled and EXTERNAL_EVENT disabled.
TASK_rf is named TASK_radio in the source. -/
def TASK_idle : Nat := 0

def TASK_processing : Nat := 1

def TASK_rf : Nat := 2

def TASK_session : Nat := 3

def TASK_hold : Nat := 4

def TASK_sleep : Nat := 5

def TASK_beacon : Nat := 6

/-- M2_PARAM_BEACON_TCA is a build configuration parameter whose value the
available sources do not fix; any positive tick count. -/
def M2_PARAM_BEACON_TCA : Nat := 12

/-! ## Data model -/

structure Session where
  channel : Nat
  subnet : Nat
  flags : Nat
  dialog_id : Nat
  netstate : Nat
  counter : Int
  deriving DecidableEq

def nullSession : Session :=
  { channel := 0, subnet := 0, flags := 0, dialog_id := 0, netstate := 0, counter := 0 }

structure IdleEvt where
  event_no : Nat
  cursor : Nat
  nextevent : Int
  sched_id : Nat
  deriving DecidableEq

structure RfaEvt where
  event_no : Nat
  nextevent : Int
  deriving DecidableEq

structure NetConf where
  subnet : Nat
  b_subnet : Nat
  dd_flags : Nat
  b_attempts : Nat
  active : Nat
  hold_limit : Nat
  deriving DecidableEq

/-- DLL communication block (m2dll_struct comm member).  The tx/rx channel
list pointers of the C struct, which may point into the inline scratch pair,
are modelled by value as lists of channel ids. -/
structure Comm where
  tc : Nat
  tca : Int
  rx_timeout : Nat
  redundants : Nat
  csmaca_params : Nat
  tx_channels : Nat
  rx_channels : Nat
  tx_chanlist : List Nat
  rx_chanlist : List Nat
  scratch0 : Nat
  scratch1 : Nat
  deriving DecidableEq

/-- State of the external radio driver as observable through the contract
calls the kernel makes on it.  Calls that start or abort radio activity are
recorded as effect counters. -/
structure RadioModel where
  sleeping : Bool
  gagged : Bool
  killCount : Nat
  reenters : Nat
  resends : Nat
  deriving DecidableEq

structure OTState where
  mutex : Nat
  HSS : IdleEvt
  SSS : IdleEvt
  BTS : IdleEvt
  RFA : RfaEvt
  hold_cycle : Nat
  netconf : NetConf
  comm : Comm
  idle_state : Nat
  sessions : List Session
  txq : List Nat
  rxq : List Nat
  link_qual : Int
  tg : Nat
  rssi : Int
  radioState : RadioModel
  preempts : Nat
  panicCalls : List Nat
  gptim : Nat
  deriving DecidableEq

/-! ## External module models -/

/-- Modelled from the spec: the veelite store keeps ISF data as big-endian
byte arrays; vl_read returns the 16-bit halfword at the given byte offset in
host byte order, so a big-endian host sees the stored halfword directly and a
little-endian host sees its bytes swapped.  The parameter be is the host
endianness (true = big-endian build). -/
def vl_read (be : Bool) (file : List Nat) (offset : Nat) : Nat :=
  let b0 := file.getD offset 0
  let b1 := file.getD (offset + 1) 0
  if be then b0 * 256 + b1 else b1 * 256 + b0

/-- Low-address byte of a Twobytes union holding a vl_read result: on either
host this is the file byte at the lower offset. -/
def ubyte0 (be : Bool) (x : Nat) : Nat :=
  if be then x / 256 % 256 else x % 256

/-- High-address byte of a Twobytes union holding a vl_read result. -/
def ubyte1 (be : Bool) (x : Nat) : Nat :=
  if be then x % 256 else x / 256 % 256

/-- Byte swap of a 16-bit value, as the source writes it:
(u << 8) | (u >> 8) on ot_u16. -/
def swap16 (x : Nat) : Nat :=
  (x <<< 8) % 65536 ||| x >>> 8

/-- Modelled from the spec: otutils_calc_timeout (declared in OT_utils.h,
defined in a missing translation unit) expands the 7-bit exp-mantissa
timeout code of a scan entry; bit 6 enables a 1024x multiplier. -/
def otutils_calc_timeout (code : Nat) : Nat :=
  (if code &&& 0x40 ≠ 0 then 1024 else 1) * (((code &&& 0x0F) + 1) <<< ((code >>> 4) &&& 3))

/-- Modelled from the spec: session_new pushes a session with the given wait,
netstate and channel on the stack; an ad-hoc session (wait = 0) always
succeeds, otherwise the push fails on overflow of the bounded stack. -/
def session_new (stack : List Session) (wait : Int) (netstate : Nat) (channel : Nat) :
    List Session :=
  if wait = 0 ∨ stack.length < 4 then
    { nullSession with channel := channel, netstate := netstate, counter := wait } :: stack
  else stack

/-- Modelled from the spec: session_refresh(elapsed) decrements the top
session counter by the elapsed ticks and reports whether a newly-ready
session is at the top of the stack (counter has run down to 0). -/
def session_refresh (elapsed : Nat) (stack : List Session) : List Session × Bool :=
  match stack with
  | [] => ([], false)
  | top :: rest =>
    let top' := { top with counter := top.counter - (elapsed : Int) }
    (top' :: rest, decide (top'.counter ≤ 0))

/-- Modelled from the spec: session_flush removes expired sessions. -/
def session_flush (stack : List Session) : List Session :=
  stack.filter (fun ss => 0 < ss.counter)

/-- Modelled from the spec: session_init resets the session stack. -/
def session_init : List Session := []

/-- Netstate of the top session (session_netstate in the source reads the
top of the stack). -/
def session_netstate (stack : List Session) : Nat :=
  (stack.headD nullSession).netstate

/-- Replace the netstate of the top session, as callbacks writing through
session_top() do. -/
def set_top_netstate (s : OTState) (ns : Nat) : OTState :=
  match s.sessions with
  | [] => s
  | top :: rest => { s with sessions := { top with netstate := ns } :: rest }

/-- radio_sleep contract call: radio core powered down. -/
def radio_sleep (s : OTState) : OTState :=
  { s with radioState := { s.radioState with sleeping := true } }

/-- radio_gag contract call: radio callbacks disabled. -/
def radio_gag (s : OTState) : OTState :=
  { s with radioState := { s.radioState with gagged := true } }

/-- rm2_kill contract call, recorded as an effect. -/
def rm2_kill (s : OTState) : OTState :=
  { s with radioState := { s.radioState with killCount := s.radioState.killCount + 1 } }

/-- rm2_reenter_rx contract call, recorded as an effect. -/
def rm2_reenter_rx (s : OTState) : OTState :=
  { s with radioState := { s.radioState with reenters := s.radioState.reenters + 1 } }

/-- rm2_prep_resend contract call, recorded as an effect. -/
def rm2_prep_resend (s : OTState) : OTState :=
  { s with radioState := { s.radioState with resends := s.radioState.resends + 1 } }

/-- platform_ot_preempt contract call, recorded as an effect. -/
def platform_ot_preempt (s : OTState) : OTState :=
  { s with preempts := s.preempts + 1 }

/-! ## System core functions (system.c) -/

/-- sys_goto_off from the source: reset sessions, disable every event. -/
def sys_goto_off (s : OTState) : OTState :=
  { s with
    sessions := session_init
    RFA := { s.RFA with event_no := 0 }
    HSS := { s.HSS with event_no := 0 }
    SSS := { s.SSS with event_no := 0 }
    BTS := { s.BTS with event_no := 0 } }

/-- sys_goto_sleep from the source (ENDPOINT enabled, RTC_SCHEDULER
disabled): zero the sleep-scan cursor, enable the sleep event, disable the
hold and radio events. -/
def sys_goto_sleep (s : OTState) : OTState :=
  { s with
    SSS := { s.SSS with cursor := 0, event_no := 1 }
    HSS := { s.HSS with event_no := 0 }
    RFA := { s.RFA with event_no := 0 } }

/-- sys_goto_hold from the source (RTC_SCHEDULER disabled). -/
def sys_goto_hold (s : OTState) : OTState :=
  { s with
    HSS := { s.HSS with event_no := 1 }
    SSS := { s.SSS with event_no := 0 }
    RFA := { s.RFA with event_no := 0 } }

/-- sys_idle from the source: gag and sleep the radio, clear the mutex, and
vector through the call table indexed by idle_state and 3
(off, sleep, hold, hold). -/
def sys_idle (s : OTState) : OTState :=
  let s := { radio_sleep (radio_gag s) with mutex := 0 }
  match s.idle_state &&& 3 with
  | 0 => sys_goto_off s
  | 1 => sys_goto_sleep s
  | 2 => sys_goto_hold s
  | _ => sys_goto_hold s

/-- sys_panic from the source: force idle_state to 0, flush the sessions, run
sys_idle, flush the general-purpose timer, and invoke the panic hook (the
hook invocation is recorded in panicCalls). -/
def sys_panic (s : OTState) (err_code : Nat) : OTState :=
  let s := { s with idle_state := 0 }
  let s := { s with sessions := session_flush s.sessions }
  let s := sys_idle s
  let s := { s with gptim := 0 }
  { s with panicCalls := s.panicCalls ++ [err_code] }

/-- sys_default_csma from the source. -/
def sys_default_csma (chan_id : Nat) : Nat :=
  let c := chan_id &&& 0x30
  if c = 0 ∨ c = 0x30 then 4 else 0

/-- sub_default_idle from the source (ENDPOINT enabled build). -/
def sub_default_idle (s : OTState) : Nat :=
  let active_setting := s.netconf.active &&& M2_SET_CLASSMASK
  if M2_SET_SUBCONTROLLER ≤ active_setting then M2_MACIDLE_HOLD
  else if active_setting &&& M2_SET_ENDPOINT ≠ 0 then M2_MACIDLE_SLEEP
  else M2_MACIDLE_OFF

/-- sub_sys_flush from the source (ENDPOINT and BEACONS enabled, RTC
features disabled): reset sessions, recompute the idle state, reset the
idle-time events, enable the beacon event iff b_attempts is nonzero, then
run sys_idle. -/
def sub_sys_flush (s : OTState) : OTState :=
  let s := { s with sessions := session_init, idle_state := sub_default_idle s }
  let s := { s with
             SSS := { s.SSS with cursor := 0, nextevent := 0 }
             HSS := { s.HSS with cursor := 0, nextevent := 0 }
             BTS := { s.BTS with
                      cursor := 0
                      event_no := (if s.netconf.b_attempts ≠ 0 then 1 else 0)
                      nextevent := 0 } }
  sys_idle s

/-- sys_refresh from the source: load the network configuration from ISF 0
through vl_read and the Twobytes union, then flush the system.  Note the
source reads hold_limit with a plain vl_read at offset 8 and carries a todo
comment about the missing endian conversion. -/
def sys_refresh (be : Bool) (store : Nat → List Nat) (s : OTState) : OTState :=
  let file := store 0
  let scr2 := vl_read be file 2
  let scr6 := vl_read be file 6
  let nc : NetConf :=
    { subnet := ubyte0 be scr2
      b_subnet := ubyte1 be scr2
      dd_flags := ubyte0 be scr6
      b_attempts := ubyte1 be scr6
      active := vl_read be file 4
      hold_limit := vl_read be file 8 }
  sub_sys_flush { s with netconf := nc }

/-! ## MAC filter and CSMA-CA / flow control (system.c) -/

/-- sub_mac_filter from the source: link-budget filtering on rxq byte 1
against phymac link_qual, then subnet filtering of rxq byte 2 against the
device subnet. -/
def sub_mac_filter (s : OTState) : Bool :=
  let linkloss : Int := (((s.rxq.getD 1 0 >>> 1) &&& 0x3F : Nat) : Int) - 40 - s.rssi
  let qualifier := decide (linkloss ≤ s.link_qual)
  let fr_subnet := s.rxq.getD 2 0
  let dsm := s.netconf.subnet &&& 0x0F
  let mask := fr_subnet &&& dsm
  let specifier := (fr_subnet ^^^ s.netconf.subnet) &&& 0xF0
  let fr_hi := fr_subnet &&& 0xF0
  qualifier && (decide ((fr_hi = 0xF0 ∨ specifier = 0) ∧ mask = dsm))

/-- sub_rigd_newslot from the source: halve tc, copy it to tca, and return a
random offset within the halved window.  The random parameter stands for the
platform_prand_u16() draw. -/
def sub_rigd_newslot (random : Nat) (s : OTState) : OTState × Nat :=
  let tc' := s.comm.tc >>> 1
  ({ s with comm := { s.comm with tc := tc', tca := (tc' : Int) } }, random % tc')

/-- sub_rigd_nextslot from the source: time already consumed in the current
window, clamped at zero. -/
def sub_rigd_nextslot (s : OTState) : Nat :=
  let wait : Int := (s.comm.tc : Int) - s.comm.tca
  if wait < 0 then 0 else wait.toNat

/-- sub_aind_nextslot from the source: the duration of the frame at the
front of the TX queue.  pktDur stands for the radio contract call
rm2_pkt_duration. -/
def sub_aind_nextslot (pktDur : Nat → Nat) (s : OTState) : Nat :=
  pktDur (s.txq.getD 0 0)

/-- sub_fcinit from the source: dispatch on csmaca_params bits 3..4
(RIGD, RAIND, AIND, default MAC CA). -/
def sub_fcinit (random : Nat) (pktDur : Nat → Nat) (s : OTState) : OTState × Nat :=
  match (s.comm.csmaca_params >>> 3) &&& 3 with
  | 0 => sub_rigd_newslot random s
  | 1 => (s, ((random : Int) % (s.comm.tca - (pktDur (s.txq.getD 0 0) : Int))).toNat)
  | _ => (s, 0)

/-- sub_fcloop from the source.  In the RIGD case the C expression is
sub_rigd_nextslot() + sub_rigd_newslot(); the model evaluates nextslot on
the incoming state, then newslot. -/
def sub_fcloop (random : Nat) (pktDur : Nat → Nat) (s : OTState) : OTState × Nat :=
  match (s.comm.csmaca_params >>> 3) &&& 3 with
  | 0 =>
    let w := sub_rigd_nextslot s
    let r := sub_rigd_newslot random s
    (r.1, w + r.2)
  | 1 => (s, sub_aind_nextslot pktDur s)
  | 2 => (s, sub_aind_nextslot pktDur s)
  | _ => (s, s.tg)

/-! ## Task clocking (sub_clock_tasks) -/

/-- sub_clock_tasks from the source: subtract the elapsed ticks from tca,
from each idle event nextevent (scanning the idle array from the highest
index down to 0 and overwriting the chosen task on each ready event), then
refresh the session stack, then clock the radio event, then check the
processing mutex bit; the later assignments override the earlier ones. -/
def sub_clock_tasks (elapsed : Nat) (s : OTState) : OTState × Nat :=
  let c : Comm := { s.comm with tca := s.comm.tca - (elapsed : Int) }
  let bts : IdleEvt := { s.BTS with nextevent := s.BTS.nextevent - (elapsed : Int) }
  let sss : IdleEvt := { s.SSS with nextevent := s.SSS.nextevent - (elapsed : Int) }
  let hss : IdleEvt := { s.HSS with nextevent := s.HSS.nextevent - (elapsed : Int) }
  let out0 : Nat := TASK_idle
  let out1 := if bts.event_no ≠ 0 ∧ bts.nextevent ≤ 0 then TASK_hold + 2 else out0
  let out2 := if sss.event_no ≠ 0 ∧ sss.nextevent ≤ 0 then TASK_hold + 1 else out1
  let out3 := if hss.event_no ≠ 0 ∧ hss.nextevent ≤ 0 then TASK_hold + 0 else out2
  let sr := session_refresh elapsed s.sessions
  let out4 := if sr.2 = true then TASK_session else out3
  let rfa := if s.RFA.event_no ≠ 0 then
               { s.RFA with nextevent := s.RFA.nextevent - (elapsed : Int) }
             else s.RFA
  let out5 := if s.RFA.event_no ≠ 0 then TASK_rf else out4
  let out6 := if s.mutex &&& SYS_MUTEX_PROCESSING ≠ 0 then TASK_processing else out5
  ({ s with comm := c, BTS := bts, SSS := sss, HSS := hss, sessions := sr.1, RFA := rfa },
   out6)

/-! ## Idle-time scan sequencer -/

/-- sub_scan_channel from the source: read one scan entry at the event
cursor from the given scan-sequence ISF, program the communication block for
the scan, advance and wrap the cursor, take the next-interval field as a
big-endian halfword (direct read on a big-endian host, byte-swapped
otherwise), and open an ad-hoc request-RX session; bit 7 of the flags
selects a background (flood) scan. -/
def sub_scan_channel (be : Bool) (store : Nat → List Nat) (SS_ISF : Nat)
    (evt : IdleEvt) (s : OTState) : IdleEvt × OTState :=
  let file := store SS_ISF
  let scratch := vl_read be file evt.cursor
  let s_channel := ubyte0 be scratch
  let s_flags := ubyte1 be scratch
  let nextev : Int :=
    if be then (vl_read be file (evt.cursor + 2) : Int)
    else (swap16 (vl_read be file (evt.cursor + 2)) : Int)
  let cur := evt.cursor + 2 + 2
  let cur := if file.length ≤ cur then 0 else cur
  let evt' := { evt with cursor := cur, nextevent := nextev }
  let s := { s with comm := { s.comm with
                              rx_timeout := otutils_calc_timeout s_flags
                              redundants := 0
                              rx_channels := 1
                              rx_chanlist := [s_channel]
                              scratch1 := s_channel } }
  let ns := if s_flags &&& 0x80 ≠ 0 then
              M2_NETSTATE_REQRX ||| M2_NETSTATE_INIT ||| M2_NETFLAG_FLOOD
            else
              M2_NETSTATE_REQRX ||| M2_NETSTATE_INIT
  let s := { s with sessions := session_new s.sessions 0 ns s_channel }
  (evt', s)

/-- sysevt_holdscan from the source: run sub_scan_channel on the HSS event
and the hold-scan-sequence ISF. -/
def sysevt_holdscan (be : Bool) (store : Nat → List Nat) (s : OTState) : OTState :=
  let r := sub_scan_channel be store ISF_ID_hold_scan_sequence s.HSS s
  { r.2 with HSS := r.1 }

/-- sysevt_sleepscan from the source: run sub_scan_channel on the SSS event
and the sleep-scan-sequence ISF. -/
def sysevt_sleepscan (be : Bool) (store : Nat → List Nat) (s : OTState) : OTState :=
  let r := sub_scan_channel be store ISF_ID_sleep_scan_sequence s.SSS s
  { r.2 with SSS := r.1 }

/-- TASK_hold case of sys_event_manager from the source (endpoint-enabled
build): bump hold_cycle when the hold cursor has wrapped to 0, then either
transition to sleep and run one sleep-scan (endpoint whose hold_cycle has
reached hold_limit) or run a hold-scan. -/
def task_hold (be : Bool) (store : Nat → List Nat) (s : OTState) : OTState :=
  let s := { s with hold_cycle := s.hold_cycle + (if s.HSS.cursor = 0 then 1 else 0) }
  if (s.netconf.active &&& M2_SET_CLASSMASK) = M2_SET_ENDPOINT ∧
     s.hold_cycle = s.netconf.hold_limit then
    sysevt_sleepscan be store (sys_goto_sleep s)
  else
    sysevt_holdscan be store s

/-! ## Beacon transmit event -/

/-- External collaborators of sysevt_beacon that live in modules referenced
by contract only: the M2NP header and footer builders, the M2QP ISF-call
payload builder, and the radio guard-time calculator. -/
structure BeaconExt where
  np_header : Session → Nat → Nat → OTState → OTState
  np_footer : OTState → OTState
  qp_isf_call : Nat → List Nat → OTState → Int × OTState
  default_tgd : Nat → Nat

/-- sysevt_beacon from the source.  When beaconing is disabled (b_attempts
is 0) or the beacon-transmit-sequence file is empty, the event only pushes
its next firing 65535 ticks out and returns.  Otherwise it reads one
8-byte beacon entry at the BTS cursor, opens an ad-hoc session, builds the
beacon frame in the TX queue, programs the communication block, advances and
wraps the cursor, and pops the session if the ISF-call payload fails. -/
def sysevt_beacon (be : Bool) (store : Nat → List Nat) (ext : BeaconExt)
    (s : OTState) : OTState :=
  let file := store ISF_ID_beacon_transmit_sequence
  if s.netconf.b_attempts = 0 ∨ file.length = 0 then
    { s with BTS := { s.BTS with nextevent := 65535 } }
  else
    let c := s.BTS.cursor
    let scratch := vl_read be file c
    let chan := ubyte0 be scratch
    let beacon_params := ubyte1 be scratch
    let sess : Session :=
      { nullSession with
        channel := chan
        subnet := s.netconf.b_subnet
        flags := (s.netconf.dd_flags &&& 0xCF) ||| (beacon_params &&& 0x30)
        netstate := M2_NETSTATE_INIT ||| M2_NETFLAG_FIRSTRX }
    let s := { s with sessions := sess :: s.sessions }
    let bqueue : List Nat :=
      [file.getD (c + 2) 0, file.getD (c + 3) 0, file.getD (c + 4) 0, file.getD (c + 5) 0]
    let nextev : Int :=
      if be then (vl_read be file (c + 6) : Int)
      else (swap16 (vl_read be file (c + 6)) : Int)
    let cur := c + 6 + 2
    let cur := if file.length ≤ cur then 0 else cur
    let s := { s with BTS := { s.BTS with cursor := cur, nextevent := nextev } }
    let s := ext.np_header sess 0x40 0 s
    let s := { s with txq := s.txq ++ [0x20 + (beacon_params &&& 1)] }
    let s := if beacon_params &&& 0x04 ≠ 0 then { s with txq := s.txq ++ [0x04] } else s
    let rxto := if beacon_params &&& 0x02 ≠ 0 then 0 else ext.default_tgd chan
    let s := { s with comm := { s.comm with tc := M2_PARAM_BEACON_TCA, rx_timeout := rxto } }
    let s := { s with txq := s.txq ++ [rxto % 256] }
    let s := { s with comm := { s.comm with
                                csmaca_params :=
                                  sys_default_csma chan ||| (beacon_params &&& 0x04) |||
                                    (M2_CSMACA_NA2P ||| M2_CSMACA_MACCA)
                                redundants := s.netconf.b_attempts
                                tx_channels := 1
                                rx_channels := 1
                                tx_chanlist := [chan]
                                rx_chanlist := [chan]
                                scratch0 := chan
                                scratch1 := chan } }
    let r := ext.qp_isf_call (beacon_params &&& 1) bqueue s
    if 0 ≤ r.1 then ext.np_footer r.2
    else { r.2 with sessions := r.2.sessions.tail }

/-! ## Radio callbacks -/

/-- rfevt_frx from the source (software RX timer build).  A negative pcode
is a listening timeout: the radio event is cleared and the session fate is
decided by the remaining redundants, the A2P bit, or scrapping.  A
non-negative pcode carries the frames-remaining count with fcode as CRC
status: bad frames and filter failures mark an error code, and on packet
completion a good frame raises the processing mutex, bad-or-response frames
re-enter RX, and a good request finishes the radio task; the kernel is
pre-empted when the final pcode value is 0. -/
def rfevt_frx (s : OTState) (pcode fcode : Int) : OTState :=
  if pcode < 0 then
    let s := { s with RFA := { s.RFA with event_no := 0 } }
    let ns :=
      if s.comm.redundants ≠ 0 then
        M2_NETSTATE_REQTX ||| M2_NETSTATE_INIT ||| M2_NETFLAG_FIRSTRX
      else if s.comm.csmaca_params &&& M2_CSMACA_A2P ≠ 0 then
        session_netstate s.sessions ^^^ 0x30
      else
        M2_NETFLAG_SCRAP
    set_top_netstate s ns
  else
    let frx_code : Int :=
      if fcode ≠ 0 then -1
      else if sub_mac_filter s = false then -4
      else 0
    if pcode = 0 then
      let resp := session_netstate s.sessions &&& M2_NETSTATE_RESP
      let s := if frx_code = 0 then { s with mutex := s.mutex ||| SYS_MUTEX_PROCESSING } else s
      if frx_code ≠ 0 ∨ resp ≠ 0 then
        let s := rm2_reenter_rx s
        if frx_code = 0 then platform_ot_preempt s else s
      else
        let s := { s with RFA := { s.RFA with event_no := 0 } }
        platform_ot_preempt (radio_sleep s)
    else
      s

/-- rfevt_ftx from the source: a pcode of 1 is a non-final frame of a
multiframe packet (no state change); otherwise the packet TX is done:
clear mutex and radio event, decrement redundants (modulo the ot_u8 width),
and either prepare an immediate CSMA-off resend (no response window or
response packet, redundants remaining) or end the session by setting the
RESPRX transfer bits and a scrap bit on errors; the kernel is pre-empted. -/
def rfevt_ftx (s : OTState) (pcode : Int) : OTState :=
  if pcode = 1 then s
  else
    let s := { s with mutex := 0, RFA := { s.RFA with event_no := 0 } }
    let ns := session_netstate s.sessions
    let scrap_bit : Nat :=
      (if s.comm.rx_timeout = 0 then 1 else 0) |||
        (if ns &&& M2_NETSTATE_RESPTX ≠ 0 then 1 else 0)
    let s := { s with comm := { s.comm with redundants := (s.comm.redundants + 255) % 256 } }
    if scrap_bit ≠ 0 ∧ s.comm.redundants ≠ 0 then
      let s := { s with comm := { s.comm with
                                  csmaca_params := M2_CSMACA_NOCSMA ||| M2_CSMACA_MACCA } }
      platform_ot_preempt (rm2_prep_resend s)
    else
      let scrap_bit := scrap_bit ||| (if pcode ≠ 0 then 1 else 0)
      let ns' := ((ns ||| (scrap_bit <<< 7)) &&& 0xCF) ||| M2_NETSTATE_RESPRX
      platform_ot_preempt (set_top_netstate s ns')

/-! ## OTAPI server functions -/

/-- otapi_start_dialog from the source: if the mutex is nonzero, clear it
and kill the radio; pre-empt the kernel and return 1. -/
def otapi_start_dialog (s : OTState) : OTState × Nat :=
  let s := if s.mutex ≠ 0 then rm2_kill { s with mutex := 0 } else s
  (platform_ot_preempt s, 1)

/-- otapi_start_flood from the source.  A zero flood_duration is routed to
otapi_start_dialog.  The nonzero path (m2advp_init_flood, sysevt_initbtx
and re-entry into the event manager) is carried as the floodRun parameter:
it concerns external flood setup and the kernel loop, which the zero path
never reaches. -/
def otapi_start_flood (floodRun : OTState → OTState × Nat) (s : OTState)
    (flood_duration : Nat) : OTState × Nat :=
  if flood_duration = 0 then otapi_start_dialog s
  else floodRun s

/-! ## Derived definitions used by the property statements -/

/-- Iterated RIGD new-slot calls: fold sub_rigd_newslot over a list of
random draws, keeping the state. -/
def rigd_iter (randoms : List Nat) (s : OTState) : OTState :=
  randoms.foldl (fun st r => (sub_rigd_newslot r st).1) s

/-- Per-call contract of sub_rigd_newslot: tc is halved, tca is set to the
new tc, and the returned offset is the random draw reduced mod the new tc,
hence within the halved window when that window is nonempty. -/
def rigd_newslot_spec (s : OTState) (random : Nat) : Prop :=
  (sub_rigd_newslot random s).1.comm.tc = s.comm.tc >>> 1 ∧
  (sub_rigd_newslot random s).1.comm.tca = ((s.comm.tc >>> 1 : Nat) : Int) ∧
  (sub_rigd_newslot random s).2 = random % (s.comm.tc >>> 1) ∧
  (0 < s.comm.tc >>> 1 → (sub_rigd_newslot random s).2 < s.comm.tc >>> 1)

/-- Contract of a single sub_fcinit call under RIGD mode starting from
tc = 1000: afterwards tc = 500, tca = 500, and the returned offset is
below 500. -/
def fcinit_rigd_spec (s : OTState) (random : Nat) (pktDur : Nat → Nat) : Prop :=
  (s.comm.csmaca_params >>> 3) &&& 3 = 0 →
  s.comm.tc = 1000 →
  (sub_fcinit random pktDur s).1.comm.tc = 500 ∧
  (sub_fcinit random pktDur s).1.comm.tca = 500 ∧
  (sub_fcinit random pktDur s).2 < 500

/-- Behaviour of the rfevt_frx listen-timeout path claimed for the
foreground-RX callback: the radio event is cleared, redundants is untouched,
and the top session netstate is rewritten according to the remaining
redundants, the A2P bit, or scrapped. -/
def frx_timeout_spec (s : OTState) (pcode fcode : Int) : Prop :=
  (rfevt_frx s pcode fcode).RFA.event_no = 0 ∧
  (rfevt_frx s pcode fcode).comm.redundants = s.comm.redundants ∧
  (s.comm.redundants ≠ 0 →
    session_netstate (rfevt_frx s pcode fcode).sessions =
      (M2_NETSTATE_REQTX ||| M2_NETSTATE_INIT ||| M2_NETFLAG_FIRSTRX)) ∧
  (s.comm.redundants = 0 → s.comm.csmaca_params &&& M2_CSMACA_A2P ≠ 0 →
    session_netstate (rfevt_frx s pcode fcode).sessions =
      session_netstate s.sessions ^^^ 0x30) ∧
  (s.comm.redundants = 0 → s.comm.csmaca_params &&& M2_CSMACA_A2P = 0 →
    session_netstate (rfevt_frx s pcode fcode).sessions = M2_NETFLAG_SCRAP)

/-- The three-clause acceptance condition of the MAC filter as the
specification words it: link loss within budget, upper nibble of the frame
subnet either 0xF0 or matching the device subnet, and the lower-nibble mask
condition. -/
def mac_filter_spec (s : OTState) : Prop :=
  sub_mac_filter s = true ↔
    ((((s.rxq.getD 1 0 >>> 1) &&& 0x3F : Nat) : Int) - 40 - s.rssi ≤ s.link_qual ∧
     (s.rxq.getD 2 0 &&& 0xF0 = 0xF0 ∨
       s.rxq.getD 2 0 &&& 0xF0 = s.netconf.subnet &&& 0xF0) ∧
     s.rxq.getD 2 0 &&& (s.netconf.subnet &&& 0x0F) = s.netconf.subnet &&& 0x0F)

/-- Claimed effect of one hold task dispatch on an endpoint: hold_cycle is
bumped exactly when the hold cursor sits at 0, and in the dispatch where the
bumped hold_cycle meets hold_limit the device switches to sleep
(sleep event armed at cursor 0, hold event disabled) and exactly one
sleep-scan runs on the switched state. -/
def hold_to_sleep_spec (be : Bool) (store : Nat → List Nat) (s : OTState) : Prop :=
  (task_hold be store s).hold_cycle =
      s.hold_cycle + (if s.HSS.cursor = 0 then 1 else 0) ∧
  (s.hold_cycle + (if s.HSS.cursor = 0 then 1 else 0) = s.netconf.hold_limit →
    (task_hold be store s =
        sysevt_sleepscan be store
          (sys_goto_sleep
            { s with hold_cycle := s.hold_cycle + (if s.HSS.cursor = 0 then 1 else 0) }) ∧
     (sys_goto_sleep s).SSS.event_no = 1 ∧
     (sys_goto_sleep s).SSS.cursor = 0 ∧
     (sys_goto_sleep s).HSS.event_no = 0))

/-! ## Concrete states and stores used by witnesses and counterexamples -/

def baseState : OTState :=
  { mutex := 0
    HSS := { event_no := 0, cursor := 0, nextevent := 0, sched_id := 0 }
    SSS := { event_no := 0, cursor := 0, nextevent := 0, sched_id := 0 }
    BTS := { event_no := 0, cursor := 0, nextevent := 0, sched_id := 0 }
    RFA := { event_no := 0, nextevent := 0 }
    hold_cycle := 0
    netconf := { subnet := 0, b_subnet := 0, dd_flags := 0, b_attempts := 0,
                 active := 0, hold_limit := 0 }
    comm := { tc := 0, tca := 0, rx_timeout := 0, redundants := 0, csmaca_params := 0,
              tx_channels := 1, rx_channels := 1, tx_chanlist := [], rx_chanlist := [],
              scratch0 := 0, scratch1 := 0 }
    idle_state := 0
    sessions := []
    txq := []
    rxq := []
    link_qual := 80
    tg := 2
    rssi := -90
    radioState := { sleeping := false, gagged := false, killCount := 0,
                    reenters := 0, resends := 0 }
    preempts := 0
    panicCalls := []
    gptim := 0 }

/-- State with both the hold-scan and the beacon events ready at the same
dispatcher iteration and no higher-priority work pending. -/
def tieState : OTState :=
  { baseState with
    HSS := { event_no := 1, cursor := 0, nextevent := 0, sched_id := 0 }
    BTS := { event_no := 1, cursor := 0, nextevent := 0, sched_id := 0 } }

/-- Endpoint in hold with hold_cycle one short of hold_limit and the hold
cursor wrapped to 0. -/
def c6State : OTState :=
  { baseState with
    netconf := { baseState.netconf with active := M2_SET_ENDPOINT, hold_limit := 3 }
    hold_cycle := 2
    HSS := { event_no := 1, cursor := 0, nextevent := 0, sched_id := 0 } }

/-- One-record scan-sequence store: channel 7, flags 5, next interval
200 ticks stored big-endian. -/
def scanStore : Nat → List Nat :=
  fun _ => [0x07, 0x05, 0x00, 0xC8]

/-- ISF 0 image whose hold_limit halfword at offset 8 holds the big-endian
pattern 0x1234 (bytes 0x12 then 0x34). -/
def netSettingsStore : Nat → List Nat :=
  fun i => if i = 0 then [0x5A, 0x0B, 0x5A, 0x0B, 0x00, 0x01, 0x07, 0x02, 0x12, 0x34]
           else []

/-- Foreground-RX session state used for the timeout-callback witness:
fscan under way with rx_timeout 50 and redundants 2, one open session. -/
def frxState : OTState :=
  { baseState with
    mutex := SYS_MUTEX_RADIO_LISTEN
    RFA := { event_no := 2, nextevent := 50 }
    comm := { baseState.comm with rx_timeout := 50, redundants := 2 }
    sessions := [{ nullSession with
                   channel := 7
                   netstate := M2_NETSTATE_REQRX ||| M2_NETSTATE_INIT }] }

/-- Beacon-external collaborators that leave the state unchanged; used only
to instantiate the universally quantified externals at a concrete point. -/
def idBeaconExt : BeaconExt :=
  { np_header := fun _ _ _ st => st
    np_footer := fun st => st
    qp_isf_call := fun _ _ st => (0, st)
    default_tgd := fun _ => 2 }

/-- State for the RIGD witness: tc = tca = 1000, RIGD mode selected. -/
def rigdState : OTState :=
  { baseState with comm := { baseState.comm with tc := 1000, tca := 1000 } }

/-- State with subnet 0x5A receiving a frame whose subnet byte is 0xF3, the
literal boundary scenario of the MAC-filter property. -/
def c5State : OTState :=
  { baseState with
    netconf := { baseState.netconf with subnet := 0x5A }
    rxq := [0, 0x50, 0xF3] }

/-! ## Helper lemmas -/

/-- Priority shape of sub_clock_tasks: the returned task is the processing
task when the processing mutex bit is set, else the radio task when the
radio event is active, else the session task when the refresh reports a
ready session, else the lowest-indexed ready idle event, else idle. -/
theorem clock_tasks_priority_eq (elapsed : Nat) (s : OTState) :
    (sub_clock_tasks elapsed s).2 =
      if s.mutex &&& SYS_MUTEX_PROCESSING ≠ 0 then TASK_processing
      else if s.RFA.event_no ≠ 0 then TASK_rf
      else if (session_refresh elapsed s.sessions).2 = true then TASK_session
      else if s.HSS.event_no ≠ 0 ∧ s.HSS.nextevent - (elapsed : Int) ≤ 0 then TASK_hold
      else if s.SSS.event_no ≠ 0 ∧ s.SSS.nextevent - (elapsed : Int) ≤ 0 then TASK_sleep
      else if s.BTS.event_no ≠ 0 ∧ s.BTS.nextevent - (elapsed : Int) ≤ 0 then TASK_beacon
      else TASK_idle := by
  dsimp only [sub_clock_tasks]
  split_ifs <;> rfl

theorem set_top_comm (s : OTState) (ns : Nat) : (set_top_netstate s ns).comm = s.comm := by
  unfold set_top_netstate
  cases s.sessions <;> rfl

theorem set_top_RFA (s : OTState) (ns : Nat) : (set_top_netstate s ns).RFA = s.RFA := by
  unfold set_top_netstate
  cases s.sessions <;> rfl

theorem set_top_netstate_head (s : OTState) (ns : Nat) (h : s.sessions ≠ []) :
    session_netstate (set_top_netstate s ns).sessions = ns := by
  unfold set_top_netstate session_netstate
  cases hs : s.sessions with
  | nil => exact absurd hs h
  | cons a l => simp [hs]

theorem preempt_comm (s : OTState) : (platform_ot_preempt s).comm = s.comm := rfl

theorem prep_resend_comm (s : OTState) : (rm2_prep_resend s).comm = s.comm := rfl

theorem reenter_comm (s : OTState) : (rm2_reenter_rx s).comm = s.comm := rfl

theorem radio_sleep_comm (s : OTState) : (radio_sleep s).comm = s.comm := rfl

/-! ## Claim theorems -/

/-- Claim C1, counterexample: with the beacon event (index 2) and the hold
event (index 0) both ready in the same iteration and no higher-priority task
pending, sub_clock_tasks returns the hold task, not the beacon task, so the
highest-indexed ready idle event is not the one selected. -/
theorem C1_beacon_over_hold_counterexample :
    tieState.BTS.event_no ≠ 0 ∧ tieState.BTS.nextevent ≤ 0 ∧
    tieState.HSS.event_no ≠ 0 ∧ tieState.HSS.nextevent ≤ 0 ∧
    tieState.mutex &&& SYS_MUTEX_PROCESSING = 0 ∧
    tieState.RFA.event_no = 0 ∧
    (session_refresh 0 tieState.sessions).2 = false ∧
    (sub_clock_tasks 0 tieState).2 = TASK_hold ∧
    (sub_clock_tasks 0 tieState).2 ≠ TASK_beacon := by
  decide

/-- Claim C1, amended: in a dispatcher iteration with no processing, radio
or session work pending, sub_clock_tasks selects the LOWEST-indexed ready
idle event, so Hold is chosen over Sleep and Sleep over Beacon (the
highest-index-first loop lets later, lower-indexed matches overwrite the
choice). -/
theorem C1_idle_event_lowest_index_priority (elapsed : Nat) (s : OTState)
    (hmutex : s.mutex &&& SYS_MUTEX_PROCESSING = 0)
    (hrfa : s.RFA.event_no = 0)
    (hsr : (session_refresh elapsed s.sessions).2 = false) :
    (sub_clock_tasks elapsed s).2 =
      if s.HSS.event_no ≠ 0 ∧ s.HSS.nextevent - (elapsed : Int) ≤ 0 then TASK_hold
      else if s.SSS.event_no ≠ 0 ∧ s.SSS.nextevent - (elapsed : Int) ≤ 0 then TASK_sleep
      else if s.BTS.event_no ≠ 0 ∧ s.BTS.nextevent - (elapsed : Int) ≤ 0 then TASK_beacon
      else TASK_idle := by
  rw [clock_tasks_priority_eq]
  simp [hmutex, hrfa, hsr]

/-- Claim C1, witness for the amended theorem at the concrete tie state. -/
theorem C1_idle_event_lowest_index_priority_witness :
    tieState.mutex &&& SYS_MUTEX_PROCESSING = 0 ∧
    tieState.RFA.event_no = 0 ∧
    (session_refresh 0 tieState.sessions).2 = false ∧
    (sub_clock_tasks 0 tieState).2 =
      (if tieState.HSS.event_no ≠ 0 ∧ tieState.HSS.nextevent - ((0 : Nat) : Int) ≤ 0 then
         TASK_hold
       else if tieState.SSS.event_no ≠ 0 ∧ tieState.SSS.nextevent - ((0 : Nat) : Int) ≤ 0 then
         TASK_sleep
       else if tieState.BTS.event_no ≠ 0 ∧ tieState.BTS.nextevent - ((0 : Nat) : Int) ≤ 0 then
         TASK_beacon
       else TASK_idle) :=
  ⟨by decide, by decide, by decide,
   C1_idle_event_lowest_index_priority 0 tieState (by decide) (by decide) (by decide)⟩

/-- Claim C2: every dispatcher iteration returns exactly one task index,
chosen by strict priority Processing over Radio over Session over ready
idle-time events over Idle; sub_clock_tasks is a function, so the
equation below both determines the unique choice and exhibits the order. -/
theorem C2_dispatcher_strict_priority (elapsed : Nat) (s : OTState) :
    (sub_clock_tasks elapsed s).2 =
      if s.mutex &&& SYS_MUTEX_PROCESSING ≠ 0 then TASK_processing
      else if s.RFA.event_no ≠ 0 then TASK_rf
      else if (session_refresh elapsed s.sessions).2 = true then TASK_session
      else if s.HSS.event_no ≠ 0 ∧ s.HSS.nextevent - (elapsed : Int) ≤ 0 then TASK_hold
      else if s.SSS.event_no ≠ 0 ∧ s.SSS.nextevent - (elapsed : Int) ≤ 0 then TASK_sleep
      else if s.BTS.event_no ≠ 0 ∧ s.BTS.nextevent - (elapsed : Int) ≤ 0 then TASK_beacon
      else TASK_idle :=
  clock_tasks_priority_eq elapsed s

/-- Claim C3: every RIGD new-slot call halves tc, sets tca to the new tc and
returns an offset in the halved window; iterating N new-slot calls from
tc = T leaves tc = T >>> N (floored at 0); sub_fcinit and sub_fcloop in
RIGD mode route through sub_rigd_newslot; and one sub_fcinit call from
tc = 1000 leaves tc = 500 and tca = 500 and returns a value below 500. -/
theorem C3_rigd_halving :
    (∀ (s : OTState) (random : Nat), rigd_newslot_spec s random) ∧
    (∀ (s : OTState) (randoms : List Nat),
        (rigd_iter randoms s).comm.tc = s.comm.tc >>> randoms.length) ∧
    (∀ (s : OTState) (random : Nat) (pktDur : Nat → Nat),
        (s.comm.csmaca_params >>> 3) &&& 3 = 0 →
        sub_fcinit random pktDur s = sub_rigd_newslot random s) ∧
    (∀ (s : OTState) (random : Nat) (pktDur : Nat → Nat),
        (s.comm.csmaca_params >>> 3) &&& 3 = 0 →
        (sub_fcloop random pktDur s).1 = (sub_rigd_newslot random s).1) ∧
    (∀ (s : OTState) (random : Nat) (pktDur : Nat → Nat),
        fcinit_rigd_spec s random pktDur) := by
  have hnew : ∀ (s : OTState) (random : Nat), rigd_newslot_spec s random := by
    intro s random
    refine ⟨rfl, rfl, rfl, ?_⟩
    intro h
    exact Nat.mod_lt _ h
  have hinit : ∀ (s : OTState) (random : Nat) (pktDur : Nat → Nat),
      (s.comm.csmaca_params >>> 3) &&& 3 = 0 →
      sub_fcinit random pktDur s = sub_rigd_newslot random s := by
    intro s random pktDur h
    simp only [sub_fcinit, h]
  refine ⟨hnew, ?_, hinit, ?_, ?_⟩
  · intro s randoms
    induction randoms generalizing s with
    | nil => simp [rigd_iter]
    | cons r rs ih =>
      have hstep : rigd_iter (r :: rs) s = rigd_iter rs (sub_rigd_newslot r s).1 := rfl
      rw [hstep, ih, List.length_cons]
      show (sub_rigd_newslot r s).1.comm.tc >>> rs.length = _
      rw [(hnew s r).1, ← Nat.shiftRight_add, Nat.add_comm]
  · intro s random pktDur h
    simp only [sub_fcloop, h]
  · intro s random pktDur
    unfold fcinit_rigd_spec
    intro h htc
    have hrw := hinit s random pktDur h
    rw [hrw]
    refine ⟨?_, ?_, ?_⟩
    · rw [(hnew s random).1, htc]
      decide
    · rw [(hnew s random).2.1, htc]
      decide
    · rw [(hnew s random).2.2.1, htc]
      exact Nat.mod_lt _ (by decide)

/-- Claim C3, witness at tc = 1000 with RIGD selected. -/
theorem C3_rigd_halving_witness :
    rigd_newslot_spec rigdState 777 ∧
    (sub_rigd_newslot 777 rigdState).2 < 500 ∧
    (rigd_iter [11, 22, 33] rigdState).comm.tc = 125 ∧
    (rigdState.comm.csmaca_params >>> 3) &&& 3 = 0 ∧
    (sub_fcinit 777 (fun n => n) rigdState).1.comm.tc = 500 ∧
    (sub_fcinit 777 (fun n => n) rigdState).1.comm.tca = 500 ∧
    (sub_fcinit 777 (fun n => n) rigdState).2 < 500 := by
  have h1 := C3_rigd_halving.1 rigdState 777
  have h2 := C3_rigd_halving.2.1 rigdState [11, 22, 33]
  have h3 := C3_rigd_halving.2.2.2.2 rigdState 777 (fun n => n) (by decide) (by decide)
  exact ⟨h1, lt_of_lt_of_eq (h1.2.2.2 (by decide)) (by decide), h2.trans (by decide),
    by decide, h3.1, h3.2.1, h3.2.2⟩

/-- Claim C4: on a foreground-RX listen timeout (pcode below 0), rfevt_frx
clears the radio event, leaves redundants unchanged, and rewrites the top
session netstate to REQTX + INIT + FIRSTRX when redundants remain, toggles
it by XOR 0x30 under A2P, and scraps it otherwise; rfevt_frx never changes
redundants for any pcode, while rfevt_ftx decrements it on packet-TX
completion. -/
theorem C4_frx_timeout_behaviour :
    (∀ (s : OTState) (pcode fcode : Int), pcode < 0 → s.sessions ≠ [] →
        frx_timeout_spec s pcode fcode) ∧
    (∀ (s : OTState) (pcode fcode : Int),
        (rfevt_frx s pcode fcode).comm.redundants = s.comm.redundants) ∧
    (∀ (s : OTState) (pcode : Int), pcode ≠ 1 → 0 < s.comm.redundants →
        s.comm.redundants < 256 →
        (rfevt_ftx s pcode).comm.redundants = s.comm.redundants - 1) := by
  refine ⟨?_, ?_, ?_⟩
  · intro s p f hp hs
    have hfrx : rfevt_frx s p f =
        set_top_netstate { s with RFA := { s.RFA with event_no := 0 } }
          (if s.comm.redundants ≠ 0 then
             M2_NETSTATE_REQTX ||| M2_NETSTATE_INIT ||| M2_NETFLAG_FIRSTRX
           else if s.comm.csmaca_params &&& M2_CSMACA_A2P ≠ 0 then
             session_netstate s.sessions ^^^ 0x30
           else M2_NETFLAG_SCRAP) := by
      unfold rfevt_frx
      rw [if_pos hp]
    have hs2 : ({ s with RFA := { s.RFA with event_no := 0 } } : OTState).sessions ≠ [] := hs
    unfold frx_timeout_spec
    rw [hfrx, set_top_RFA, set_top_comm, set_top_netstate_head _ _ hs2]
    refine ⟨rfl, rfl, ?_, ?_, ?_⟩
    · intro h
      rw [if_pos h]
    · intro h0 hA
      rw [if_neg (by simp [h0]), if_pos hA]
    · intro h0 hA
      rw [if_neg (by simp [h0]), if_neg (by simp [hA])]
  · intro s p f
    unfold rfevt_frx
    dsimp only
    split_ifs <;>
      simp only [preempt_comm, reenter_comm, radio_sleep_comm, set_top_comm]
  · intro s p hp hpos hlt
    unfold rfevt_ftx
    rw [if_neg hp]
    dsimp only
    split_ifs <;>
      simp only [preempt_comm, prep_resend_comm, set_top_comm] <;>
      omega

/-- Claim C4, witness: the fscan-timeout boundary scenario (rx_timeout 50,
redundants 2, pcode -1). -/
theorem C4_frx_timeout_behaviour_witness :
    ((-1 : Int) < 0) ∧ frxState.sessions ≠ [] ∧ frx_timeout_spec frxState (-1) 0 ∧
    (rfevt_frx frxState (-1) 0).comm.redundants = 2 ∧
    session_netstate (rfevt_frx frxState (-1) 0).sessions =
      (M2_NETSTATE_REQTX ||| M2_NETSTATE_INIT ||| M2_NETFLAG_FIRSTRX) ∧
    (rfevt_ftx { frxState with comm := { frxState.comm with rx_timeout := 0 } }
        0).comm.redundants = 1 := by
  have h1 := C4_frx_timeout_behaviour.1 frxState (-1) 0 (by decide) (by decide)
  have h2 := C4_frx_timeout_behaviour.2.2
    { frxState with comm := { frxState.comm with rx_timeout := 0 } } 0
    (by decide) (by decide) (by decide)
  refine ⟨by decide, by decide, h1, ?_, ?_, ?_⟩
  · exact h1.2.1.trans (by decide)
  · exact h1.2.2.1 (by decide)
  · exact h2.trans (by decide)

/-- Claim C5: sub_mac_filter accepts a frame exactly when the link loss is
within the configured budget, the upper nibble of the frame subnet is 0xF0
or matches the device subnet, and the frame subnet covers the device subnet
mask bits; with subnet 0x5A and frame byte 0xF3 the filter rejects. -/
theorem C5_mac_filter_characterization :
    (∀ s : OTState, mac_filter_spec s) ∧
    (∀ s : OTState, s.netconf.subnet = 0x5A → s.rxq.getD 2 0 = 0xF3 →
        sub_mac_filter s = false) := by
  have hmain : ∀ s : OTState, mac_filter_spec s := by
    intro s
    unfold mac_filter_spec sub_mac_filter
    simp only [Bool.and_eq_true, decide_eq_true_eq]
    constructor
    · rintro ⟨h1, ⟨h2, h3⟩⟩
      refine ⟨h1, ?_, h3⟩
      rcases h2 with h2 | h2
      · exact Or.inl h2
      · rw [Nat.and_xor_distrib_right] at h2
        exact Or.inr (Nat.xor_eq_zero.mp h2)
    · rintro ⟨h1, h2, h3⟩
      refine ⟨h1, ?_, h3⟩
      rcases h2 with h2 | h2
      · exact Or.inl h2
      · right
        rw [Nat.and_xor_distrib_right]
        exact Nat.xor_eq_zero.mpr h2
  refine ⟨hmain, ?_⟩
  intro s hsub hfr
  by_contra hne
  have htrue : sub_mac_filter s = true := by
    cases h : sub_mac_filter s
    · exact absurd h hne
    · rfl
  have hifc := (hmain s).mp htrue
  rw [hsub, hfr] at hifc
  exact absurd hifc.2.2 (by decide)

/-- Claim C5, witness at subnet 0x5A and frame subnet byte 0xF3. -/
theorem C5_mac_filter_characterization_witness :
    c5State.netconf.subnet = 0x5A ∧ c5State.rxq.getD 2 0 = 0xF3 ∧
    sub_mac_filter c5State = false ∧ mac_filter_spec c5State :=
  ⟨by decide, by decide,
   C5_mac_filter_characterization.2 c5State (by decide) (by decide),
   C5_mac_filter_characterization.1 c5State⟩

/-- Claim C6: on an endpoint, each hold task dispatch bumps hold_cycle when
the hold cursor has wrapped to 0, and in the dispatch where the bumped
hold_cycle meets hold_limit the state passes through sys_goto_sleep
(SSS.event_no 1, SSS.cursor 0, HSS.event_no 0) and exactly one sleep-scan
runs on it in the same iteration. -/
theorem C6_hold_to_sleep_transition (be : Bool) (store : Nat → List Nat) (s : OTState)
    (hclass : s.netconf.active &&& M2_SET_CLASSMASK = M2_SET_ENDPOINT) :
    hold_to_sleep_spec be store s := by
  unfold hold_to_sleep_spec
  refine ⟨?_, ?_⟩
  · unfold task_hold
    dsimp only
    split_ifs <;> rfl
  · intro hlim
    refine ⟨?_, rfl, rfl, rfl⟩
    unfold task_hold
    dsimp only
    rw [if_pos ⟨hclass, hlim⟩]

/-- Claim C6, witness: endpoint with hold_limit 3, hold_cycle 2, hold cursor
wrapped to 0. -/
theorem C6_hold_to_sleep_transition_witness :
    c6State.netconf.active &&& M2_SET_CLASSMASK = M2_SET_ENDPOINT ∧
    hold_to_sleep_spec false scanStore c6State :=
  ⟨by decide, C6_hold_to_sleep_transition false scanStore c6State (by decide)⟩

/-- Claim C7: sys_refresh loads hold_limit with a plain host-order vl_read
and no byte swap (the source line carries a todo comment for the missing
endian conversion), so the big-endian pattern 0x1234 stored at offset 8 of
ISF 0 is read back as 0x3412 on a little-endian host, while a big-endian
host reads 0x1234; the claimed equality for all patterns on both hosts
fails. -/
theorem C7_hold_limit_endian_bug :
    (sys_refresh false netSettingsStore baseState).netconf.hold_limit = 0x3412 ∧
    (sys_refresh true netSettingsStore baseState).netconf.hold_limit = 0x1234 ∧
    (0x3412 : Nat) ≠ 0x1234 :=
  ⟨rfl, rfl, by decide⟩

/-- Claim C8, counterexample: sys_panic does change the radio state — on a
state whose radio is awake, the radio driver model after the call differs
from the one before (it has been gagged and put to sleep by sys_idle). -/
theorem C8_radio_state_changed_counterexample :
    (sys_panic baseState 9).radioState ≠ baseState.radioState := by
  decide

/-- Claim C8, amended: for every error code, sys_panic empties the session
stack, forces the system to idle (all events disabled, mutex cleared) and
invokes the panic hook; it performs no radio kill, re-enter or resend
operation, but by routing through sys_idle it gags the radio and puts it to
sleep, so the radio state is asleep (not unchanged) after the call. -/
theorem C8_panic_flush_idle_hook (s : OTState) (code : Nat) :
    (sys_panic s code).sessions = [] ∧
    (sys_panic s code).mutex = 0 ∧
    (sys_panic s code).HSS.event_no = 0 ∧
    (sys_panic s code).SSS.event_no = 0 ∧
    (sys_panic s code).BTS.event_no = 0 ∧
    (sys_panic s code).RFA.event_no = 0 ∧
    (sys_panic s code).radioState.sleeping = true ∧
    (sys_panic s code).radioState.gagged = true ∧
    (sys_panic s code).radioState.killCount = s.radioState.killCount ∧
    (sys_panic s code).radioState.reenters = s.radioState.reenters ∧
    (sys_panic s code).radioState.resends = s.radioState.resends ∧
    (sys_panic s code).panicCalls = s.panicCalls ++ [code] := by
  unfold sys_panic sys_idle
  simp only [Nat.reduceAnd]
  simp [sys_goto_off, radio_sleep, radio_gag, session_init]

/-- Claim C9: otapi_start_flood with a zero flood duration is the very same
computation as otapi_start_dialog — it returns 1 and leaves the session
stack and the DLL communication block unchanged — for every model of the
nonzero flood path. -/
theorem C9_start_flood_zero_equals_start_dialog
    (floodRun : OTState → OTState × Nat) (s : OTState) :
    otapi_start_flood floodRun s 0 = otapi_start_dialog s ∧
    (otapi_start_flood floodRun s 0).2 = 1 ∧
    (otapi_start_flood floodRun s 0).1.sessions = s.sessions ∧
    (otapi_start_flood floodRun s 0).1.comm = s.comm := by
  have h : otapi_start_flood floodRun s 0 = otapi_start_dialog s := rfl
  refine ⟨h, rfl, ?_, ?_⟩ <;>
    (rw [h]; unfold otapi_start_dialog; dsimp only; split_ifs <;> rfl)

/-- Claim C10: when b_attempts is 0 or the beacon-transmit-sequence file is
empty, sysevt_beacon only sets BTS.nextevent to 65535 and returns: no
session is pushed, the TX queue is untouched and the BTS cursor is
unchanged, whatever the external header, footer, payload and guard-time
collaborators do. -/
theorem C10_beacon_disabled_early_return (be : Bool) (store : Nat → List Nat)
    (ext : BeaconExt) (s : OTState)
    (h : s.netconf.b_attempts = 0 ∨ (store ISF_ID_beacon_transmit_sequence).length = 0) :
    sysevt_beacon be store ext s = { s with BTS := { s.BTS with nextevent := 65535 } } ∧
    (sysevt_beacon be store ext s).sessions = s.sessions ∧
    (sysevt_beacon be store ext s).txq = s.txq ∧
    (sysevt_beacon be store ext s).BTS.cursor = s.BTS.cursor ∧
    (sysevt_beacon be store ext s).BTS.nextevent = 65535 := by
  have key : sysevt_beacon be store ext s =
      { s with BTS := { s.BTS with nextevent := 65535 } } := by
    unfold sysevt_beacon
    dsimp only
    rw [if_pos h]
  exact ⟨key, by rw [key], by rw [key], by rw [key], by rw [key]⟩

/-- Claim C10, witness: beaconing disabled (b_attempts 0) with an empty
store and identity external collaborators. -/
theorem C10_beacon_disabled_early_return_witness :
    (baseState.netconf.b_attempts = 0 ∨
      ((fun _ => ([] : List Nat)) ISF_ID_beacon_transmit_sequence).length = 0) ∧
    sysevt_beacon false (fun _ => []) idBeaconExt baseState =
      { baseState with BTS := { baseState.BTS with nextevent := 65535 } } :=
  ⟨Or.inl (by decide),
   (C10_beacon_disabled_early_return false (fun _ => []) idBeaconExt baseState
      (Or.inl (by decide))).1⟩

end OpenTag
